import Mathlib

/-!
# Verification of `master_orchestrator.py`

A shallow embedding of the master-orchestrator module of the
autonomous-self-evolving-trading-neural-networks repository, together with
theorems settling the specification's claims about it.

Modelling conventions:
* Python `dict`s (which preserve insertion order) are association lists
  (`Dict`), with `Dict.insert` replacing an existing binding in place and
  appending a fresh one at the end, exactly as a Python assignment does.
* Values decoded from JSON are the inductive `Json`; Python exceptions are
  the inductive `PyError`; fallible steps return `Except PyError _`.
* The environment the module touches (the file system, the credential
  loader, the firebase SDK, the externally-defined phase-service
  constructors) is passed in as explicit oracles, so every function here is
  a pure, executable Lean function.
-/

set_option autoImplicit false

namespace TradingOrch

/-- The Python exceptions the embedded code can raise or catch. -/
inductive PyError where
  | keyError
  | typeError
  | valueError
  | jsonDecodeError
  | runtimeError
deriving DecidableEq

/-- An insertion-ordered string-keyed map: the embedding of a Python `dict`. -/
abbrev Dict (α : Type) : Type := List (String × α)

namespace Dict

/-- `d[k]` as a total lookup: the first (hence, for a Python dict, the only)
binding of `k`. -/
def get? {α : Type} : Dict α → String → Option α
  | [], _ => none
  | (k', v) :: d, k => if k' = k then some v else get? d k

/-- `d[k] = v`: replace the binding of `k` in place when present, append it
otherwise — Python-dict assignment, preserving insertion order. -/
def insert {α : Type} : Dict α → String → α → Dict α
  | [], k, v => [(k, v)]
  | (k', v') :: d, k, v =>
      if k' = k then (k', v) :: d else (k', v') :: insert d k v

/-- `d.update(src)` for a mapping argument `src`: each binding of `src`
is assigned into `d`, in order. -/
def updateWith {α : Type} (d src : Dict α) : Dict α :=
  src.foldl (fun acc kv => insert acc kv.1 kv.2) d

/-- The key list of a dict, in insertion order (`for key in d`). -/
def keys {α : Type} (d : Dict α) : List String :=
  d.map Prod.fst

end Dict

/-- A value decoded by `json.load`: JSON null, booleans, numbers (modelled as
rationals — the decoded literals in play are all exact decimals), strings,
arrays and objects.  `json.load` returns objects as dicts, so an `obj`'s
field list never repeats a key. -/
inductive Json where
  | null
  | bool (b : Bool)
  | num (q : ℚ)
  | str (s : String)
  | arr (elems : List Json)
  | obj (fields : List (String × Json))

/-- The Python membership test `k in j` for a decoded JSON value `j`:
key lookup on a dict, element equality on a list (a decoded element equals
the string `k` only when it is that string), substring test on a string,
and a `TypeError` on the non-container values. -/
def jsonContains (j : Json) (k : String) : Except PyError Bool :=
  match j with
  | .obj fields => .ok (Dict.get? fields k).isSome
  | .arr elems => .ok (elems.any fun e => match e with | .str s => s == k | _ => false)
  | .str s => .ok (decide ((s.splitOn k).length > 1))
  | _ => .error .typeError

/-- The subscription `j[k]` with a string key: dict lookup (a `KeyError` when
the key is absent), and a `TypeError` on every other decoded value (string
and list subscripts must be integers). -/
def jsonGetItem (j : Json) (k : String) : Except PyError Json :=
  match j with
  | .obj fields =>
      match Dict.get? fields k with
      | some v => .ok v
      | none => .error .keyError
  | _ => .error .typeError

/-- `d.update(arg)` where `arg` is a decoded JSON value: a JSON object merges
key-by-key; any other decoded value raises (`TypeError` for the
non-iterables, `ValueError`/`TypeError` for decoded strings and for the
arrays the claims exercise — the exotic array-of-pairs corner CPython would
accept is modelled as the error case, no claim depends on it). -/
def dictUpdateArg (d : Dict Json) : Json → Except PyError (Dict Json)
  | .obj fields => .ok (Dict.updateWith d fields)
  | _ => .error .typeError

/-- A configuration: the four recognized sections, each a dict of decoded
option values (`default_config` and everything `_load_config` derives from
it have this shape — the merge only ever rewrites section contents). -/
def Config : Type := Dict (Dict Json)

/-- The compiled-in `default_config` of `_load_config`
(`master_orchestrator.py` lines 88–107), decimals rendered exactly. -/
def default_config : Config :=
  [("firebase",
     [("credential_path", Json.str "firebase_credentials.json"),
      ("project_id", Json.str "trading-networks")]),
   ("training",
     [("generation_size", Json.num 10),
      ("validation_split", Json.num (2/10)),
      ("epochs", Json.num 100)]),
   ("evolution",
     [("selection_rate", Json.num (3/10)),
      ("mutation_rate", Json.num (1/10)),
      ("crossover_rate", Json.num (4/10))]),
   ("monitoring",
     [("performance_threshold", Json.num (55/100)),
      ("stagnation_limit", Json.num 5)])]

/-- What `_load_config` finds at its path: `none` when `os.path.exists` is
false, `some (.error e)` when opening/`json.load` raises, `some (.ok j)`
when the file decodes to `j`. -/
def LoadInput : Type := Option (Except PyError Json)

/-- The merge loop of `_load_config` (lines 114–116):
`for key in default_config: if key in user_config:
default_config[key].update(user_config[key])`.  The dict is mutated in
place, so the result is the dict's state at loop exit paired with the
exception, if one was raised mid-loop.  (Iterating the initial key list is
faithful: the loop never adds or removes a top-level key.) -/
def merge_loop (user : Json) : List String → Config → Config × Option PyError
  | [], cfg => (cfg, none)
  | k :: ks, cfg =>
    match jsonContains user k with
    | .error e => (cfg, some e)
    | .ok false => merge_loop user ks cfg
    | .ok true =>
      match jsonGetItem user k with
      | .error e => (cfg, some e)
      | .ok v =>
        match Dict.get? cfg k with
        | none => (cfg, some .keyError)
        | some sect =>
          match dictUpdateArg sect v with
          | .error e => (cfg, some e)
          | .ok sect' => merge_loop user ks (Dict.insert cfg k sect')

/-- The `try:`-block of `_load_config` (lines 109–117): the returned value or
the escaping exception, paired with the state of `default_config` at exit
(the merge mutates it in place, so the handler sees that state). -/
def load_config_body (input : LoadInput) : Except PyError Config × Config :=
  match input with
  | none => (.ok default_config, default_config)
  | some (.error e) => (.error e, default_config)
  | some (.ok user) =>
      match merge_loop user (Dict.keys (α := Dict Json) default_config) default_config with
      | (cfg, none) => (.ok cfg, cfg)
      | (cfg, some e) => (.error e, cfg)

/-- `_load_config` as its caller sees it: run the try-block; `except
Exception` catches any raise, logs a warning and returns `default_config` —
the same, possibly already mutated, dict object. -/
def load_configE (input : LoadInput) : Except PyError Config :=
  match load_config_body input with
  | (.ok cfg, _) => .ok cfg
  | (.error _, mutated) => .ok mutated

/-- The configuration `_load_config` hands back (the payload of
`load_configE`, which never carries an error). -/
def load_config (input : LoadInput) : Config :=
  match load_config_body input with
  | (.ok cfg, _) => cfg
  | (.error _, mutated) => mutated

/-- The shallow per-section merge in the words of the spec (§4.1): for each
recognized top-level key, when the loaded document binds it to a section,
the default section is updated key-by-key with the loaded values; keys
absent from the loaded section keep their defaults; sections absent from
the document, and unrecognized document keys, leave the defaults untouched. -/
def spec_section_merge (doc : Dict Json) : Config :=
  default_config.map fun p =>
    match Dict.get? doc p.1 with
    | some (.obj fields) => (p.1, Dict.updateWith p.2 fields)
    | _ => p

/-- The eight members of the `SystemState` enum. -/
inductive SystemState where
  | INITIALIZING
  | GENERATING
  | TRAINING
  | EVALUATING
  | DEPLOYING
  | EVOLVING
  | ERROR
  | MAINTENANCE
deriving DecidableEq

/-- The value domain of the dataclass's `float` field; no claim does float
arithmetic, so the field only distinguishes the special values from finite
ones (held as exact rationals). -/
inductive PyFloat where
  | negInf
  | posInf
  | nan
  | val (q : ℚ)
deriving DecidableEq

/-- The `NetworkGeneration` dataclass (lines 50–58): plain typed fields, no
validation — `int` embeds as `Int`, `datetime` as an abstract tick,
`Optional[str]` as `Option String`, the metadata `Dict` as a decoded dict. -/
structure NetworkGeneration where
  generation_id : String
  timestamp : Nat
  parent_generation : Option String
  models_count : Int
  best_performance : PyFloat
  metadata : Dict Json

/-- What `self.db` can hold.  The source's fallback branches assign
`Mock()` (`mock`); a `live` client is the value the success branch of
`_init_firebase` is evidently meant to produce — no assignment in the
source actually produces one. -/
inductive DbHandle where
  | mock
  | live
deriving DecidableEq

/-- The environment `_init_firebase` touches: `os.path.exists`,
`credentials.Certificate` (which raises on an unreadable/invalid file) and
`firebase_admin.initialize_app` (which can raise, e.g. on a duplicate app). -/
structure FirebaseEnv where
  path_exists : String → Bool
  certificate : String → Except PyError Unit
  initialize_app : Except PyError Unit

/-- `os.path.exists` requires a `str` (or path-like) argument; handing it a
decoded non-string raises a `TypeError`. -/
def asPathStr : Json → Except PyError String
  | .str s => .ok s
  | _ => .error .typeError

/-- The `try:`-block of `_init_firebase` (lines 124–138), in evaluation
order: the two configuration subscripts, the existence test, the credential
load, the project-id subscript (an argument of `initialize_app`, evaluated
before the call), the SDK call.  Result: the final value of `self.db` —
`some mock` in the credentials-absent branch, and `none` in the success
branch, which assigns nothing to `self.db`. -/
def init_firebase_body (env : FirebaseEnv) (config : Config) :
    Except PyError (Option DbHandle) :=
  match Dict.get? config "firebase" with
  | none => .error .keyError
  | some fb =>
    match Dict.get? fb "credential_path" with
    | none => .error .keyError
    | some cp =>
      match asPathStr cp with
      | .error e => .error e
      | .ok cred_path =>
        if env.path_exists cred_path then
          match env.certificate cred_path with
          | .error e => .error e
          | .ok _ =>
            match Dict.get? fb "project_id" with
            | none => .error .keyError
            | some _ =>
              match env.initialize_app with
              | .error e => .error e
              | .ok _ => .ok none
        else
          .ok (some .mock)

/-- `_init_firebase` as a whole: run the try-block; `except Exception`
catches any raise and assigns the `Mock()` stand-in to `self.db`.  The
result is the final value of `self.db` (`none` = attribute never set). -/
def init_firebase (env : FirebaseEnv) (config : Config) : Option DbHandle :=
  match init_firebase_body env config with
  | .ok db => db
  | .error _ => some .mock

/-- The environment `__init__` touches: the configuration file
(`LoadInput`), the firebase environment, and the six externally-defined
phase-service constructors of `_initialize_components` (lines 150–155),
collapsed into one fallible step receiving the injected configuration. -/
structure InitEnv where
  load_input : LoadInput
  fb : FirebaseEnv
  construct_components : Config → Except PyError Unit

/-- The orchestrator's own attributes after construction. -/
structure MasterOrchestrator where
  config : Config
  db : Option DbHandle
  state : SystemState
  current_generation : Option NetworkGeneration

/-- `MasterOrchestrator.__init__` (lines 63–84): load config, run
`_init_firebase`, set `state = INITIALIZING` and `current_generation =
None`, then construct the components; on a construction failure the state
becomes `ERROR` and the same exception is re-raised.  The result pairs the
constructed object's attributes with the re-raised exception, if any. -/
def MasterOrchestrator.init (env : InitEnv) :
    MasterOrchestrator × Option PyError :=
  let config := load_config env.load_input
  let db := init_firebase env.fb config
  let o : MasterOrchestrator :=
    { config := config, db := db, state := .INITIALIZING,
      current_generation := none }
  match env.construct_components config with
  | .ok _ => (o, none)
  | .error e => ({ o with state := .ERROR }, some e)

/-- Modelled from the spec: the five phase services' coarse operations
(spec §2, §6), each fallible; `run_generation` itself is not in the
repository's files — only the spec (§4.3 per-cycle contract) describes it.
`Arch` and `Model` are the opaque artifact types. -/
structure PhaseServices (Arch Model : Type) where
  generate : Except PyError (List Arch)
  train : List Arch → Except PyError (List Model)
  evaluate : List Model → Except PyError ℚ
  deploy : List Model → Except PyError Unit
  evolve : List Model → Except PyError Unit

/-- The typed failure `run_generation` surfaces: the phase that failed and
the underlying exception (spec §4.3: logged with the current state and
propagated so a supervisor can react). -/
structure PhaseFailure where
  phase : SystemState
  error : PyError
deriving DecidableEq

/-- What one `run_generation` call leaves behind: the controller's state,
the generation records written through the persistence gateway during the
call, and the returned record or the surfaced typed failure. -/
structure RunOutcome where
  state : SystemState
  persisted : List NetworkGeneration
  result : Except PhaseFailure NetworkGeneration

/-- Modelled from the spec: `run_generation(parent_id)` (spec §4.3), absent
from the repository's files.  One cycle GENERATING → TRAINING → EVALUATING
→ {DEPLOYING →} EVOLVING: each phase call is wrapped so a raise transitions
the state to ERROR, persists nothing, and surfaces a `PhaseFailure`; on
success exactly one `NetworkGeneration` referencing `parent` is persisted
at the end and the state returns to GENERATING for the next cycle.
DEPLOYING is entered only when the evaluated performance exceeds the
configured threshold (spec §4.3 state machine). -/
def run_generation {Arch Model : Type} (svc : PhaseServices Arch Model)
    (threshold : ℚ) (parent : Option String) (gen_id : String) (now : Nat) :
    RunOutcome :=
  match svc.generate with
  | .error e => ⟨.ERROR, [], .error ⟨.GENERATING, e⟩⟩
  | .ok population =>
    match svc.train population with
    | .error e => ⟨.ERROR, [], .error ⟨.TRAINING, e⟩⟩
    | .ok models =>
      match svc.evaluate models with
      | .error e => ⟨.ERROR, [], .error ⟨.EVALUATING, e⟩⟩
      | .ok score =>
        match (if threshold < score then svc.deploy models else .ok ()) with
        | .error e => ⟨.ERROR, [], .error ⟨.DEPLOYING, e⟩⟩
        | .ok _ =>
          match svc.evolve models with
          | .error e => ⟨.ERROR, [], .error ⟨.EVOLVING, e⟩⟩
          | .ok _ =>
            let record : NetworkGeneration :=
              { generation_id := gen_id, timestamp := now,
                parent_generation := parent,
                models_count := (models.length : Int),
                best_performance :=
                  if models.length = 0 then .negInf else .val score,
                metadata := [] }
            ⟨.GENERATING, [record], .ok record⟩

/-- Whether some phase call of the cycle raises, phase by phase along the
path `run_generation` actually takes. -/
def some_phase_fails {Arch Model : Type} (svc : PhaseServices Arch Model)
    (threshold : ℚ) : Bool :=
  match svc.generate with
  | .error _ => true
  | .ok population =>
    match svc.train population with
    | .error _ => true
    | .ok models =>
      match svc.evaluate models with
      | .error _ => true
      | .ok score =>
        match (if threshold < score then svc.deploy models else .ok ()) with
        | .error _ => true
        | .ok _ =>
          match svc.evolve models with
          | .error _ => true
          | .ok _ => false

/-! ## Concrete scenarios used by the claims -/

/-- The C1 scenario: configuration file absent, credential file absent,
component construction succeeds. -/
def scene_no_files : InitEnv :=
  { load_input := none,
    fb := { path_exists := fun _ => false,
            certificate := fun _ => .ok (),
            initialize_app := .ok () },
    construct_components := fun _ => .ok () }

/-- The C2 scenario at the persistence boundary: the credential file exists,
loads as a valid certificate, and the SDK call succeeds. -/
def scene_live_credentials : FirebaseEnv :=
  { path_exists := fun _ => true,
    certificate := fun _ => .ok (),
    initialize_app := .ok () }

/-- A persistence environment whose credential file exists but fails to
load as a certificate. -/
def scene_bad_certificate : FirebaseEnv :=
  { path_exists := fun _ => true,
    certificate := fun _ => .error .valueError,
    initialize_app := .ok () }

/-- An initialization environment whose component construction raises. -/
def scene_component_failure : InitEnv :=
  { load_input := none,
    fb := { path_exists := fun _ => false,
            certificate := fun _ => .ok (),
            initialize_app := .ok () },
    construct_components := fun _ => .error .runtimeError }

/-- A configuration document whose `firebase` section is a mapping but
whose `training` section is the number 5: the merge rewrites the
`firebase` defaults in place and then raises on `training`. -/
def doc_partial_merge : Json :=
  .obj [("firebase", .obj [("project_id", .str "custom")]),
        ("training", .num 5)]

/-- A configuration document with a non-mapping `training` section followed
by a mapping `evolution` section: the merge raises before reaching
`evolution`, so the loaded `evolution` values are dropped. -/
def doc_section_after_error : Dict Json :=
  [("training", Json.num 5),
   ("evolution", Json.obj [("mutation_rate", Json.num (9/10))])]

/-- A phase-service set whose very first phase call raises. -/
def scene_phase_failure : PhaseServices Unit Unit :=
  { generate := .error .runtimeError,
    train := fun _ => .ok [],
    evaluate := fun _ => .ok 0,
    deploy := fun _ => .ok (),
    evolve := fun _ => .ok () }

/-- A well-formed configuration document overriding one key of one section. -/
def doc_training_override : Dict Json :=
  [("training", Json.obj [("epochs", Json.num 5)])]

/-- `cfg` still contains every section `base` has, and each such section
still binds every key the base section binds (to some value). -/
def config_extends (base cfg : Config) : Prop :=
  ∀ k sect0, Dict.get? base k = some sect0 →
    ∃ sect, Dict.get? cfg k = some sect ∧
      ∀ kk, (Dict.get? sect0 kk).isSome = true →
        (Dict.get? sect kk).isSome = true

/-! ## Helper lemmas -/

theorem get?_insert {α : Type} (d : Dict α) (k k' : String) (v : α) :
    Dict.get? (Dict.insert d k v) k' =
      if k = k' then some v else Dict.get? d k' := by
  induction d with
  | nil => by_cases h : k = k' <;> simp [Dict.insert, Dict.get?, h]
  | cons kv d ih =>
    obtain ⟨k0, v0⟩ := kv
    by_cases h0 : k0 = k <;> by_cases h1 : k0 = k' <;> by_cases h2 : k = k' <;>
      simp_all [Dict.insert, Dict.get?]

theorem get?_insert_isSome {α : Type} (d : Dict α) (k kk : String) (v : α)
    (h : (Dict.get? d kk).isSome = true) :
    (Dict.get? (Dict.insert d k v) kk).isSome = true := by
  rw [get?_insert]
  by_cases hk : k = kk <;> simp [hk, h]

theorem get?_updateWith_isSome {α : Type} (src : Dict α) (d : Dict α)
    (kk : String) (h : (Dict.get? d kk).isSome = true) :
    (Dict.get? (Dict.updateWith d src) kk).isSome = true := by
  induction src generalizing d with
  | nil => exact h
  | cons kv src ih =>
    have hstep : Dict.updateWith d (kv :: src) =
        Dict.updateWith (Dict.insert d kv.1 kv.2) src := rfl
    rw [hstep]
    exact ih _ (get?_insert_isSome _ _ _ _ h)

theorem config_extends_rfl (base : Config) : config_extends base base :=
  fun _ sect0 h0 => ⟨sect0, h0, fun _ hk => hk⟩

/-- One step of the in-place merge keeps `config_extends`: replacing a
present section by its update can only keep or add keys. -/
theorem config_extends_insert (base cfg : Config) (k : String)
    (sect : Dict Json) (fields : Dict Json)
    (hc : Dict.get? cfg k = some sect) (h : config_extends base cfg) :
    config_extends base (Dict.insert cfg k (Dict.updateWith sect fields)) := by
  intro k' sect0 h0
  obtain ⟨sect', hs', hsub⟩ := h k' sect0 h0
  by_cases hk : k = k'
  · subst hk
    have hss : sect' = sect := by
      rw [hc] at hs'
      exact (Option.some.inj hs').symm
    subst hss
    refine ⟨Dict.updateWith sect' fields, ?_, ?_⟩
    · rw [get?_insert]; simp
    · exact fun kk hkk => get?_updateWith_isSome _ _ _ (hsub kk hkk)
  · refine ⟨sect', ?_, hsub⟩
    rw [get?_insert]
    simp [hk, hs']

/-- The merge loop, wherever it stops (normally or at a raise), keeps
`config_extends`: it only ever updates sections in place. -/
theorem merge_loop_preserves (user : Json) (ks : List String)
    (base : Config) (cfg : Config) (h : config_extends base cfg) :
    config_extends base (merge_loop user ks cfg).1 := by
  induction ks generalizing cfg with
  | nil => exact h
  | cons k ks ih =>
    rcases hj : jsonContains user k with e | b
    · simpa [merge_loop, hj] using h
    · cases b with
      | false => simpa [merge_loop, hj] using ih cfg h
      | true =>
        rcases hv : jsonGetItem user k with e | v
        · simpa [merge_loop, hj, hv] using h
        · rcases hc : Dict.get? cfg k with _ | sect
          · simpa [merge_loop, hj, hv, hc] using h
          · rcases hu : dictUpdateArg sect v with e | sect'
            · simpa [merge_loop, hj, hv, hc, hu] using h
            · have hnext := ih (Dict.insert cfg k sect') (by
                cases v with
                | obj fields =>
                    have : sect' = Dict.updateWith sect fields :=
                      (Except.ok.inj hu).symm
                    subst this
                    exact config_extends_insert base cfg k sect fields hc h
                | null => exact absurd hu (by simp [dictUpdateArg])
                | bool b => exact absurd hu (by simp [dictUpdateArg])
                | num q => exact absurd hu (by simp [dictUpdateArg])
                | str s => exact absurd hu (by simp [dictUpdateArg])
                | arr elems => exact absurd hu (by simp [dictUpdateArg]))
              simpa [merge_loop, hj, hv, hc, hu] using hnext

/-- Whatever the input, `_load_config`'s result is the merge loop's final
dict state when the file decoded, and the pristine defaults otherwise. -/
theorem load_config_cases (user : Json) :
    load_config (some (Except.ok user)) =
      (merge_loop user (Dict.keys (α := Dict Json) default_config)
        default_config).1 := by
  unfold load_config load_config_body
  rcases hm : merge_loop user (Dict.keys (α := Dict Json) default_config)
      default_config with ⟨cfg, err⟩
  cases err <;> simp [hm]

/-! ## Theorems -/

/-- Claim C1, as stated, is false on the code: with the configuration file
absent, the credential file absent and component construction succeeding,
`__init__` completes without raising, but the post-construction state is
`INITIALIZING` — nothing in `__init__` ever sets `GENERATING`. -/
theorem claim1_cex_state_not_generating :
    (MasterOrchestrator.init scene_no_files).2 = none ∧
    (MasterOrchestrator.init scene_no_files).1.state ≠ SystemState.GENERATING :=
  ⟨rfl, fun h => SystemState.noConfusion h⟩

/-- Claim C1 amended: in the config-absent, credentials-absent scenario the
constructor succeeds, the persistence handle is the `Mock()` stand-in, and
the state after construction is `INITIALIZING` (not `GENERATING`). -/
theorem claim1_no_files_initializing_with_mock (env : InitEnv)
    (hcfg : env.load_input = none)
    (hcred : env.fb.path_exists "firebase_credentials.json" = false)
    (hcomp : env.construct_components default_config = .ok ()) :
    (MasterOrchestrator.init env).2 = none ∧
    (MasterOrchestrator.init env).1.state = SystemState.INITIALIZING ∧
    (MasterOrchestrator.init env).1.db = some DbHandle.mock := by
  have hload : load_config env.load_input = default_config := by
    rw [hcfg]; rfl
  have hdb : init_firebase env.fb default_config = some DbHandle.mock := by
    simp [init_firebase, init_firebase_body, default_config, Dict.get?,
      asPathStr, hcred]
  simp [MasterOrchestrator.init, hload, hdb, hcomp]

/-- Witness for the amended claim C1 at the concrete scenario. -/
theorem claim1_witness :
    (MasterOrchestrator.init scene_no_files).2 = none ∧
    (MasterOrchestrator.init scene_no_files).1.state = SystemState.INITIALIZING ∧
    (MasterOrchestrator.init scene_no_files).1.db = some DbHandle.mock :=
  claim1_no_files_initializing_with_mock scene_no_files rfl rfl rfl

/-- Claim C2 names a code bug: with an existing, valid credential file (and
a successful SDK call) the success branch of `_init_firebase` logs and
returns without ever assigning `self.db`, so the controller holds no
document-store handle at all — a later `self.db` access raises
`AttributeError` — where both branches of the fallback assign `Mock()`. -/
theorem claim2_live_credentials_leave_db_unset :
    init_firebase scene_live_credentials default_config = none := rfl

/-- Claim C3, as stated, is false on the code: on `doc_partial_merge` the
merge raises a `TypeError` (so loading fails), yet the returned
configuration is not the built-in default — the `firebase` section already
carries the user's `project_id`, because the merge mutated the default
dict in place before the error. -/
theorem claim3_cex_partial_merge_escapes :
    (load_config_body (some (Except.ok doc_partial_merge))).1 =
      Except.error PyError.typeError ∧
    load_config (some (Except.ok doc_partial_merge)) ≠ default_config := by
  refine ⟨rfl, fun h => ?_⟩
  have h2 : Dict.get? (load_config (some (Except.ok doc_partial_merge))) "firebase" =
      Dict.get? default_config "firebase" := by rw [h]
  have h3 : (some [("credential_path", Json.str "firebase_credentials.json"),
        ("project_id", Json.str "custom")] : Option (Dict Json)) =
      some [("credential_path", Json.str "firebase_credentials.json"),
        ("project_id", Json.str "trading-networks")] := h2
  simp at h3

/-- Claim C3 amended: when the path is missing or the content fails to
parse, `_load_config` returns the built-in defaults unchanged; but when an
error is raised mid-merge, it returns the default dict in the mutated
state the merge left it in (sections merged before the error keep the
user's values).  In every case it returns rather than raises. -/
theorem claim3_fallback_returns_loop_state (e : PyError) :
    load_config none = default_config ∧
    load_config (some (Except.error e)) = default_config ∧
    ∀ user cfg err,
      merge_loop user (Dict.keys (α := Dict Json) default_config) default_config =
        (cfg, some err) →
      load_config (some (Except.ok user)) = cfg := by
  refine ⟨rfl, rfl, fun user cfg err hm => ?_⟩
  simp [load_config, load_config_body, hm]

/-- Claim C4: for every input — missing file, unparseable content, content
of any decoded shape — `_load_config` hands its caller a configuration and
never lets an exception escape: the `except Exception:` handler returns
the default dict instead. -/
theorem claim4_load_config_never_raises (input : LoadInput) :
    ∃ cfg, load_configE input = Except.ok cfg := by
  rcases h : load_config_body input with ⟨r, mutated⟩
  cases r with
  | ok cfg => exact ⟨cfg, by simp [load_configE, h]⟩
  | error e => exact ⟨mutated, by simp [load_configE, h]⟩

/-- Claim C6: when any phase-service constructor raises during
`_initialize_components`, `__init__` sets the state to `ERROR` and
re-raises the same exception to its caller. -/
theorem claim6_construction_failure_fatal (env : InitEnv) (e : PyError)
    (h : env.construct_components (load_config env.load_input) = .error e) :
    (MasterOrchestrator.init env).1.state = SystemState.ERROR ∧
    (MasterOrchestrator.init env).2 = some e := by
  simp [MasterOrchestrator.init, h]

/-- Witness for claim C6 at a concrete failing constructor. -/
theorem claim6_witness :
    (MasterOrchestrator.init scene_component_failure).1.state = SystemState.ERROR ∧
    (MasterOrchestrator.init scene_component_failure).2 = some PyError.runtimeError :=
  claim6_construction_failure_fatal scene_component_failure PyError.runtimeError rfl

/-- Claim C7: every exception raised inside `_init_firebase`'s try-block —
a missing `credential_path` key, a failing credential load, a failing SDK
call, any of them — is caught, and the degraded `Mock()` stand-in is
installed; nothing propagates past the connection boundary. -/
theorem claim7_persistence_errors_contained (env : FirebaseEnv)
    (config : Config) (e : PyError)
    (h : init_firebase_body env config = .error e) :
    init_firebase env config = some DbHandle.mock := by
  unfold init_firebase
  rw [h]

/-- Witness for claim C7: a credential file that exists but fails to load. -/
theorem claim7_witness :
    init_firebase scene_bad_certificate default_config = some DbHandle.mock :=
  claim7_persistence_errors_contained scene_bad_certificate default_config
    PyError.valueError rfl

/-- Claim C9, as stated, is false on the code: the `NetworkGeneration`
dataclass validates nothing, so a record with `models_count = 0` and
`best_performance = 0.0` (no sentinel) is a perfectly well-typed
inhabitant. -/
theorem claim9_cex_zero_count_zero_performance :
    ¬ (∀ r : NetworkGeneration,
        0 ≤ r.models_count ∧
        (r.models_count = 0 → r.best_performance ≠ PyFloat.val 0)) :=
  fun h =>
    (h { generation_id := "gen_0", timestamp := 0, parent_generation := none,
         models_count := 0, best_performance := PyFloat.val 0,
         metadata := [] }).2 rfl rfl

/-- Claim C9 amended: the dataclass enforces no invariant relating
`models_count` and `best_performance` and does not restrict the count's
sign — every integer count and every float score, in any combination, is
representable. -/
theorem claim9_no_invariant_enforced (m : Int) (b : PyFloat) :
    ∃ r : NetworkGeneration, r.models_count = m ∧ r.best_performance = b :=
  ⟨{ generation_id := "gen_0", timestamp := 0, parent_generation := none,
     models_count := m, best_performance := b, metadata := [] },
   rfl, rfl⟩

/-- Claim C10: whatever the path and file content, the configuration
`_load_config` returns still contains every default top-level section,
and within each section every default option key (bound to some value):
loading can only override or extend the defaults, never remove them. -/
theorem claim10_defaults_never_removed (input : LoadInput) (k : String)
    (sect0 : Dict Json) (h : Dict.get? default_config k = some sect0) :
    ∃ sect, Dict.get? (load_config input) k = some sect ∧
      ∀ kk, (Dict.get? sect0 kk).isSome = true →
        (Dict.get? sect kk).isSome = true := by
  rcases input with _ | r
  · exact config_extends_rfl default_config k sect0 h
  · cases r with
    | error e => exact config_extends_rfl default_config k sect0 h
    | ok user =>
      rw [load_config_cases]
      exact merge_loop_preserves user _ default_config default_config
        (config_extends_rfl default_config) k sect0 h

/-- Witness for claim C10: the `firebase` section and its default keys
survive a load with no configuration file. -/
theorem claim10_witness :
    ∃ sect, Dict.get? (load_config none) "firebase" = some sect ∧
      ∀ kk, (Dict.get? [("credential_path",
          Json.str "firebase_credentials.json"),
          ("project_id", Json.str "trading-networks")] kk).isSome = true →
        (Dict.get? sect kk).isSome = true :=
  claim10_defaults_never_removed none "firebase"
    [("credential_path", Json.str "firebase_credentials.json"),
     ("project_id", Json.str "trading-networks")] rfl

/-- Claim C8 (spec-modelled — `run_generation` is not among the
repository's files): whichever phase call fails, the cycle persists no
generation record at all, leaves the controller in `ERROR`, and surfaces a
typed `PhaseFailure` to the caller. -/
theorem claim8_phase_failure_contained {Arch Model : Type}
    (svc : PhaseServices Arch Model) (threshold : ℚ) (parent : Option String)
    (gen_id : String) (now : Nat)
    (h : some_phase_fails svc threshold = true) :
    (run_generation svc threshold parent gen_id now).persisted = [] ∧
    (run_generation svc threshold parent gen_id now).state = SystemState.ERROR ∧
    ∃ f, (run_generation svc threshold parent gen_id now).result =
      Except.error f := by
  unfold some_phase_fails at h
  unfold run_generation
  rcases hg : svc.generate with e | population
  · simp [hg]
  · simp only [hg] at h ⊢
    rcases ht : svc.train population with e | models
    · simp [ht]
    · simp only [ht] at h ⊢
      rcases he : svc.evaluate models with e | score
      · simp [he]
      · simp only [he] at h ⊢
        rcases hd : (if threshold < score then svc.deploy models
            else Except.ok ()) with e | u
        · simp [hd]
        · simp only [hd] at h ⊢
          rcases hv : svc.evolve models with e | u2
          · simp [hv]
          · simp [hv] at h

/-- Witness for claim C8: the architecture phase raises immediately. -/
theorem claim8_witness :
    (run_generation scene_phase_failure (55/100) none "gen_1" 0).persisted
      = [] ∧
    (run_generation scene_phase_failure (55/100) none "gen_1" 0).state
      = SystemState.ERROR ∧
    ∃ f, (run_generation scene_phase_failure (55/100) none "gen_1" 0).result
      = Except.error f :=
  claim8_phase_failure_contained scene_phase_failure (55/100) none "gen_1" 0 rfl

/-- Claim C5, as stated, is false on the code: `doc_section_after_error`
exists and parses, and its `evolution` section is present and well-formed,
yet `_load_config` does not merge it — the loop raises on the earlier
non-mapping `training` value and the handler returns with `evolution`
untouched, so the result differs from the claimed per-section merge. -/
theorem claim5_cex_merge_stops_at_error :
    load_config (some (Except.ok (Json.obj doc_section_after_error))) ≠
      spec_section_merge doc_section_after_error := by
  intro h
  have h2 : Dict.get? (load_config
        (some (Except.ok (Json.obj doc_section_after_error)))) "evolution" =
      Dict.get? (spec_section_merge doc_section_after_error) "evolution" := by
    rw [h]
  have h3 : (some [("selection_rate", Json.num (3/10)),
        ("mutation_rate", Json.num (1/10)),
        ("crossover_rate", Json.num (4/10))] : Option (Dict Json)) =
      some [("selection_rate", Json.num (3/10)),
        ("mutation_rate", Json.num (9/10)),
        ("crossover_rate", Json.num (4/10))] := h2
  simp only [Option.some.injEq, List.cons.injEq, Prod.mk.injEq,
    Json.num.injEq] at h3
  have h4 : (1/10 : ℚ) = 9/10 := h3.2.1.2
  norm_num at h4

/-- Claim C5 amended: for every existing, parseable document each of whose
recognized top-level sections, when present, is itself a mapping,
`_load_config` computes exactly the spec's shallow per-section merge —
present sections overwrite the default section key-by-key, absent keys
keep their defaults, absent sections are untouched, unrecognized top-level
keys are ignored. -/
theorem claim5_shallow_merge_for_mapping_sections (fields : Dict Json)
    (h : ∀ k, k ∈ (["firebase", "training", "evolution", "monitoring"] :
        List String) → ∀ v, Dict.get? fields k = some v →
        ∃ fs, v = Json.obj fs) :
    load_config (some (Except.ok (Json.obj fields))) =
      spec_section_merge fields := by
  have hf := h "firebase" (by simp)
  have ht := h "training" (by simp)
  have he := h "evolution" (by simp)
  have hm := h "monitoring" (by simp)
  rcases hF : Dict.get? fields "firebase" with _ | vF <;>
    rcases hT : Dict.get? fields "training" with _ | vT <;>
      rcases hE : Dict.get? fields "evolution" with _ | vE <;>
        rcases hM : Dict.get? fields "monitoring" with _ | vM
  all_goals try obtain ⟨fsF, rfl⟩ := hf vF hF
  all_goals try obtain ⟨fsT, rfl⟩ := ht vT hT
  all_goals try obtain ⟨fsE, rfl⟩ := he vE hE
  all_goals try obtain ⟨fsM, rfl⟩ := hm vM hM
  all_goals
    simp [load_config, load_config_body, merge_loop, jsonContains,
      jsonGetItem, dictUpdateArg, Dict.keys, Dict.insert, Dict.get?,
      default_config, spec_section_merge, hF, hT, hE, hM]

/-- Witness for the amended claim C5: a document overriding one key of the
`training` section merges exactly as the spec describes. -/
theorem claim5_witness :
    load_config (some (Except.ok (Json.obj doc_training_override))) =
      spec_section_merge doc_training_override :=
  claim5_shallow_merge_for_mapping_sections doc_training_override (by
    intro k hk v hv
    fin_cases hk
    · rw [show Dict.get? doc_training_override "firebase" = none from rfl] at hv
      exact Option.noConfusion hv
    · rw [show Dict.get? doc_training_override "training" =
          some (Json.obj [("epochs", Json.num 5)]) from rfl] at hv
      exact ⟨[("epochs", Json.num 5)], (Option.some.inj hv).symm⟩
    · rw [show Dict.get? doc_training_override "evolution" = none from rfl] at hv
      exact Option.noConfusion hv
    · rw [show Dict.get? doc_training_override "monitoring" = none from rfl] at hv
      exact Option.noConfusion hv)

end TradingOrch
